import Mathlib

/-!
Verification of the endpoint-resolution, liaison-supervision and
download/upload-orchestration logic of the kernel-images repository
(`shared/cdp-test/main.py` and `samples/agent-live-demo/scripts/browser_join.py`).

The Python functions are shallowly embedded as pure Lean functions.
External effects (DNS lookup via `socket.gethostbyname`, HTTP round trips,
`json.loads`) appear as oracle parameters; machine-level string routines of
the Python standard library (`str.replace`, `str.strip`, `str.startswith`,
splitting) are reimplemented on `List Char` with the same semantics so that
every definition is executable and kernel-reducible.
-/

/-! ### List-of-characters string primitives (Python string semantics) -/

/-- Membership test for Python ASCII whitespace stripped by `str.strip()`. -/
def is_space (c : Char) : Bool :=
  c = ' ' || c = '\t' || c = '\n' || c = '\r' || c = '\x0b' || c = '\x0c'

/-- `str.strip()` on a character list: drop whitespace from both ends. -/
def py_strip (l : List Char) : List Char :=
  ((l.dropWhile is_space).reverse.dropWhile is_space).reverse

/-- `str.startswith(p)`. -/
def starts_with (p l : List Char) : Bool := p.isPrefixOf l

/-- Split a character list at every occurrence of the character `sep`
(Python `str.split(sep)` for a one-character separator). -/
def split_on_char (sep : Char) : List Char → List (List Char)
  | [] => [[]]
  | x :: xs =>
    let r := split_on_char sep xs
    if x = sep then [] :: r
    else
      match r with
      | h :: t => (x :: h) :: t
      | [] => [[x]]

/-- `str.rstrip(c)` restricted to a single character. -/
def py_rstrip_char (c : Char) (l : List Char) : List Char :=
  (l.reverse.dropWhile (fun x => x = c)).reverse

/-- Parse a run of decimal digits into a number (Python `int(s)` on the
strings this program feeds it). -/
def digits_to_nat (l : List Char) : Option Nat :=
  if l.isEmpty || !(l.all Char.isDigit) then none
  else some (l.foldl (fun acc c => acc * 10 + (c.toNat - 48)) 0)

/-- Python `str.replace(p, r)` on character lists: replace every
non-overlapping occurrence of `p`, scanning left to right.  For a nonempty
pattern this matches Python semantics exactly; the empty pattern (never used
by the embedded code) is treated as the identity. -/
def py_replaceL (p r : List Char) : List Char → List Char
  | [] => []
  | c :: cs =>
    if h : p ≠ [] ∧ p.isPrefixOf (c :: cs) then
      r ++ py_replaceL p r ((c :: cs).drop p.length)
    else
      c :: py_replaceL p r cs
termination_by l => l.length
decreasing_by
  · have hp : 0 < p.length := List.length_pos.mpr h.1
    simp only [List.length_drop, List.length_cons]
    omega
  · simp

/-- `s.replace(p, r)` lifted to `String`. -/
def py_replace (s p r : String) : String :=
  String.mk (py_replaceL p.data r.data s.data)

/-! ### Endpoint Resolver (`_resolve_cdp_url`, main.py lines 304-351) -/

/-- One run of `\d+` (as in the resolver's regex): nonempty, all digits. -/
def digit_run (l : List Char) : Bool := !l.isEmpty && l.all Char.isDigit

/-- The `\d+\.\d+\.\d+\.\d+` alternative of the resolver's quick
IP-literal regex. -/
def ipv4_re_match (l : List Char) : Bool :=
  match split_on_char '.' l with
  | [a, b, c, d] => digit_run a && digit_run b && digit_run c && digit_run d
  | _ => false

/-- A character of the `[0-9a-fA-F:]` class. -/
def hex_colon_char (c : Char) : Bool :=
  c.isDigit || ('a' ≤ c && c ≤ 'f') || ('A' ≤ c && c ≤ 'F') || c = ':'

/-- The resolver's quick-and-dirty IP-literal check
`_IP_RE = ^(?:\d+\.\d+\.\d+\.\d+|[0-9a-fA-F:]+)$` (main.py line 324). -/
def ip_re_match (s : String) : Bool :=
  ipv4_re_match s.data || (!s.data.isEmpty && s.data.all hex_colon_char)

/-- Lines 322-331 of main.py: starting from `parsed.hostname or "localhost"`,
resolve a non-localhost, non-IP-pattern hostname through the name-lookup
oracle (`socket.gethostbyname`); a lookup failure (`none`) falls back to
`"localhost"`. -/
def resolve_raw_host (lookup : String → Option String) (hostname : String) : String :=
  let rh := if hostname = "" then "localhost" else hostname
  if rh ≠ "localhost" ∧ ip_re_match rh = false then
    match lookup rh with
    | some ip => ip
    | none => "localhost"
  else rh

/-- Modelled from the spec, for comparison with the code's pattern: a
genuine IP literal, i.e. a valid dotted-quad IPv4 address (each octet a
digit run with value at most 255) or a valid textual IPv6 address
(colon-separated groups of one to four hex digits, with at most one `::`
compression). -/
def spec_valid_ipv4 (s : String) : Bool :=
  match split_on_char '.' s.data with
  | [a, b, c, d] =>
    [a, b, c, d].all fun o => digit_run o && decide ((digits_to_nat o).getD 256 ≤ 255)
  | _ => false

/-- A hexadecimal digit (for the spec-side IPv6 check). -/
def is_hex_digit (c : Char) : Bool :=
  c.isDigit || ('a' ≤ c && c ≤ 'f') || ('A' ≤ c && c ≤ 'F')

/-- A 1-4 digit hexadecimal group of an IPv6 address. -/
def hex_group (l : List Char) : Bool :=
  !l.isEmpty && decide (l.length ≤ 4) && l.all is_hex_digit

/-- Whether a character list starts with a colon. -/
def head_is_colon : List Char → Bool
  | y :: _ => y == ':'
  | [] => false

/-- Split a character list at its first `::` occurrence, if any. -/
def split_double_colon : List Char → Option (List Char × List Char)
  | [] => none
  | x :: xs =>
    if x == ':' && head_is_colon xs then
      some ([], xs.drop 1)
    else
      (split_double_colon xs).map (fun ab => (x :: ab.1, ab.2))

/-- Colon-separated groups of a (half of an) IPv6 address; the empty half of
a `::` compression contributes no groups. -/
def groups_of (l : List Char) : List (List Char) :=
  if l.isEmpty then [] else split_on_char ':' l

/-- Modelled from the spec: a valid textual IPv6 address, either eight hex
groups or a single `::` compression with fewer than eight groups. -/
def spec_valid_ipv6 (s : String) : Bool :=
  match split_double_colon s.data with
  | none =>
    let gs := split_on_char ':' s.data
    decide (gs.length = 8) && gs.all hex_group
  | some (a, b) =>
    !(split_double_colon b).isSome
      && (groups_of a).all hex_group && (groups_of b).all hex_group
      && decide ((groups_of a).length + (groups_of b).length ≤ 7)

/-- Modelled from the spec: an IP literal in the ordinary sense used by the
specification text (a valid IPv4 or IPv6 address). -/
def spec_is_ip_literal (s : String) : Bool := spec_valid_ipv4 s || spec_valid_ipv6 s

/-- The scheme/hostname/port triple that `urlparse` exposes on the version
URL (`parsed.scheme`, `parsed.hostname`, `parsed.port`); an absent hostname
is represented by the empty string. -/
structure UrlParts where
  scheme : String
  hostname : String
  port : Option Nat
deriving DecidableEq

/-- Split a URL string at its first `://`, if present. -/
def split_scheme : List Char → Option (List Char × List Char)
  | [] => none
  | x :: xs =>
    if ("://".data).isPrefixOf (x :: xs) then some ([], (x :: xs).drop 3)
    else (split_scheme xs).map (fun ab => (x :: ab.1, ab.2))

/-- `urlparse` restricted to the URL shapes `_resolve_cdp_url` builds:
scheme before `://`, then a netloc up to the first `/`, optionally carrying
one `:port`.  Like Python, the hostname is lowercased. -/
def parse_url (u : String) : UrlParts :=
  match split_scheme u.data with
  | none => ⟨"", String.mk (u.data.map Char.toLower), none⟩
  | some (sch, rest) =>
    let netloc := rest.takeWhile (fun c => c ≠ '/')
    match split_on_char ':' netloc with
    | [h] => ⟨String.mk sch, String.mk (h.map Char.toLower), none⟩
    | [h, p] => ⟨String.mk sch, String.mk (h.map Char.toLower), digits_to_nat p⟩
    | _ => ⟨String.mk sch, String.mk (netloc.map Char.toLower), none⟩

/-- Line 315 of main.py:
`urljoin(arg.rstrip("/") + ":9222/", "json/version")`, which for the
accepted inputs concatenates to `arg.rstrip("/") + ":9222/json/version"`. -/
def version_url (arg : String) : String :=
  String.mk (py_rstrip_char '/' arg.data ++ (":9222/json/version").data)

/-- The hostname actually used for the request (lines 322-331) computed on
parsed URL parts. -/
def raw_host_of (lookup : String → Option String) (u : UrlParts) : String :=
  resolve_raw_host lookup u.hostname

/-- Lines 332-334: the Host header, `raw_host` plus the parsed port when one
is present. -/
def host_header_of (lookup : String → Option String) (u : UrlParts) : String :=
  match u.port with
  | some p => raw_host_of lookup u ++ ":" ++ toString p
  | none => raw_host_of lookup u

/-- The discovery response body as far as `_resolve_cdp_url` consumes it:
the JSON object with its optional `webSocketDebuggerUrl` string field. -/
structure VersionInfo where
  webSocketDebuggerUrl : Option String
deriving DecidableEq

/-- How `_resolve_cdp_url` can end: returning a websocket URL, calling
`sys.exit(1)` from its blanket `except` clause, or raising an uncaught
exception before the `try` block. -/
inductive ResolveResult
  | ok (ws : String)
  | exit1
  | raised (msg : String)
deriving DecidableEq

/-- Lines 316-351 of main.py on parsed URL parts.  `fetch` is the oracle for
the `urlopen`/`json.load` round trip keyed by the Host header; `none` models
a request or decode error.  A missing `webSocketDebuggerUrl` field
(`KeyError`) lands in the same blanket `except`, hence `exit1`.  When the
original scheme was `https`, the returned URL has `ws://` replaced by
`wss://` and the raw host replaced by the parsed hostname (lines 340-343). -/
def resolve_from_parts (lookup : String → Option String)
    (fetch : String → Option VersionInfo) (u : UrlParts) : ResolveResult :=
  match fetch (host_header_of lookup u) with
  | none => .exit1
  | some vi =>
    match vi.webSocketDebuggerUrl with
    | none => .exit1
    | some ws =>
      if u.scheme = "https" then
        .ok (py_replace (py_replace ws ("ws://") ("wss://")) (raw_host_of lookup u) u.hostname)
      else .ok ws

/-- `_resolve_cdp_url` (main.py lines 304-351).  Lines 312-313 raise
`ValueError` for an argument that does not start with `http://` or
`https://`; otherwise the version URL is built and resolved. -/
def resolve_cdp_url (lookup : String → Option String)
    (fetch : String → Option VersionInfo) (arg : String) : ResolveResult :=
  if starts_with ("http://").data arg.data || starts_with ("https://").data arg.data then
    resolve_from_parts lookup fetch (parse_url (version_url arg))
  else
    .raised ("Expected a url, got " ++ arg)

/-! ### JSON values (as far as the embedded code inspects them) -/

/-- A Python JSON value, to the depth the embedded code inspects it. -/
inductive PyJson
  | str (s : String)
  | num (n : Int)
  | obj (fields : List (String × PyJson))
  | arr (elems : List PyJson)
  | null

/-- `dict` lookup by key, first match (keys are unique in the responses). -/
def obj_get (fs : List (String × PyJson)) (k : String) : Option PyJson :=
  match fs with
  | [] => none
  | (k2, v) :: tl => if k2 = k then some v else obj_get tl k

/-- Python truthiness of a JSON value. -/
def py_truthy : PyJson → Bool
  | .str s => s != ""
  | .num n => n != 0
  | .obj fs => !fs.isEmpty
  | .arr xs => !xs.isEmpty
  | .null => false

/-- Truthiness of a `dict.get` result (`None` is falsy). -/
def truthy_opt : Option PyJson → Bool
  | none => false
  | some j => py_truthy j

/-- Python `a or b` on `dict.get` results: keep `a` whenever it is truthy. -/
def py_or (a b : Option PyJson) : Option PyJson :=
  if truthy_opt a then a else b

/-- `data.get(k)`: an `AttributeError` is raised when `data` is not a dict
(in particular when it is a JSON array). -/
def py_dict_get (j : PyJson) (k : String) : Except String (Option PyJson) :=
  match j with
  | .obj fs => .ok (obj_get fs k)
  | _ => .error ("AttributeError")

/-- The string payload of an extracted field (the responses carry the
websocket URL as a JSON string). -/
def opt_str : Option PyJson → String
  | some (.str s) => s
  | _ => ""

/-! ### `resolve_cdp_url` of browser_join.py (lines 27-55, one candidate) -/

/-- The body of one candidate attempt of browser_join.py's
`resolve_cdp_url` after the JSON decode, up to the extraction of the
websocket URL: the `or`-chain over the three historical field spellings,
the early return on a truthy value, and the JSON-array fallback guarded by
`isinstance(data, list)`.  `.error` models an exception caught by the loop's
`except` clause (the candidate fails); `.ok none` models falling through to
`last_err = RuntimeError(...)`.  The later localhost-netloc rewrite of the
extracted URL (lines 40-44 and 49-53) does not affect which responses are
accepted and is not modelled. -/
def bj_attempt (data : PyJson) : Except String (Option String) := do
  let a ← py_dict_get data ("webSocketDebuggerUrl")
  let b ← py_dict_get data ("websocketDebuggerUrl")
  let c ← py_dict_get data ("webSocketDebuggerURL")
  let ws := py_or a (py_or b c)
  if truthy_opt ws then
    return some (opt_str ws)
  else
    match data with
    | .arr (d0 :: _) =>
      match d0 with
      | .obj fs0 =>
        let ws2 := obj_get fs0 ("webSocketDebuggerUrl")
        if truthy_opt ws2 then return some (opt_str ws2) else return none
      | _ => return none
    | _ => return none

/-! ### Filesystem Bridge: SSE stream consumer (main.py lines 420-428) -/

/-- One line of the server-push stream: strip it, keep it only when it
carries the `data: ` prefix, and hand the remainder to the JSON decoder
oracle (`json.loads`); the outer `none` is a filtered line, the inner
`none` a logged-and-skipped `JSONDecodeError`. -/
def sse_decode_line (decode : String → Option PyJson) (line : String) :
    Option (Option PyJson) :=
  let s := py_strip line.data
  if starts_with ("data: ").data s then some (decode (String.mk (s.drop 6)))
  else none

/-- The events printed by the stream loop: every line that carries the
prefix and decodes successfully, in order; malformed lines are skipped
without ending the sequence. -/
def sse_events (decode : String → Option PyJson) (lines : List String) : List PyJson :=
  lines.filterMap fun l =>
    match sse_decode_line decode l with
    | some (some j) => some j
    | _ => none

/-! ### Filesystem Bridge: `_watch_filesystem` (main.py lines 374-444) -/

/-- How a coroutine of main.py can end: falling off its body, or a
`sys.exit(code)` call (no such call exists in `_watch_filesystem`). -/
inductive TaskEnd
  | finished
  | exited (code : Nat)
deriving DecidableEq

/-- The responses the filesystem API gives to one `_watch_filesystem` run. -/
structure FsResponses where
  mkdirStatus : Nat
  watchStatus : Nat
  watchId : Option String
  eventsStatus : Nat
  eventLines : List String

/-- Python truthiness of the optional `watch_id` string. -/
def truthy_opt_str : Option String → Bool
  | none => false
  | some s => s != ""

/-- What one `_watch_filesystem` run did. -/
structure WatchRun where
  outcome : TaskEnd
  mkdirWarned : Bool
  events : List PyJson
  cleaned : Bool

/-- `_watch_filesystem`: a non-201 `create_directory` response only logs a
warning (lines 390-392); a non-201 `watch` response logs and returns, so the
`finally` block sees `watch_id` still unset (lines 400-403); a non-200
events response logs and returns (lines 415-418); otherwise the SSE stream
is consumed.  The `finally` cleanup issues the best-effort delete whenever
`watch_id` is truthy (lines 432-444). -/
def watch_filesystem (decode : String → Option PyJson) (r : FsResponses) : WatchRun :=
  let warned := r.mkdirStatus != 201
  if r.watchStatus != 201 then ⟨.finished, warned, [], false⟩
  else if r.eventsStatus != 200 then ⟨.finished, warned, [], truthy_opt_str r.watchId⟩
  else ⟨.finished, warned, sse_events decode r.eventLines, truthy_opt_str r.watchId⟩

/-! ### Download orchestration (`_click_and_await_download`, main.py 17-53) -/

/-- The two CDP browser download events the helper subscribes to:
`Browser.downloadWillBegin` with its optional `suggestedFilename`, and
`Browser.downloadProgress` with its optional `state` string. -/
inductive DlEvent
  | dlBegin (suggestedFilename : Option String)
  | progress (state : Option String)
deriving DecidableEq

/-- The mutable state of `_click_and_await_download`: the captured filename
and whether the completion event has been set. -/
structure DlState where
  filename : Option String
  completed : Bool
deriving DecidableEq

/-- `_on_download_begin`: `event.get("suggestedFilename", "unknown")`. -/
def on_download_begin (s : DlState) (f : Option String) : DlState :=
  { s with filename := some (f.getD ("unknown")) }

/-- `_on_download_progress`: set the completion event exactly when the state
is `completed` or `canceled`. -/
def on_download_progress (s : DlState) (st : Option String) : DlState :=
  if st == some ("completed") || st == some ("canceled") then
    { s with completed := true }
  else s

/-- Dispatch one event to its handler. -/
def dl_step (s : DlState) : DlEvent → DlState
  | .dlBegin f => on_download_begin s f
  | .progress st => on_download_progress s st

/-- The handler state after a sequence of events delivered before the
timeout. -/
def dl_run (events : List DlEvent) : DlState :=
  events.foldl dl_step ⟨none, false⟩

/-- The return value of `_click_and_await_download`: the captured suggested
filename (returned whether or not the wait completed). -/
def click_and_await_download (events : List DlEvent) : Option String :=
  (dl_run events).filename

/-- Whether an event is a progress event with a completing state. -/
def completing : DlEvent → Bool
  | .progress st => st == some ("completed") || st == some ("canceled")
  | _ => false

/-- Whether some delivered event completes the download wait. -/
def has_completing_progress (l : List DlEvent) : Bool := l.any completing

/-- Whether every begin event of the sequence carries the given suggested
filename. -/
def begin_ok (fn : String) : DlEvent → Bool
  | .dlBegin f => f == some fn
  | _ => true

/-- All begin events of the sequence carry the given filename. -/
def begins_only (fn : String) (l : List DlEvent) : Bool := l.all (begin_ok fn)

/-! ### Filesystem Bridge: `_fetch_remote_downloads` (main.py lines 56-98) -/

/-- One entry of the `list_files` response as the loop reads it
(`get("is_dir", False)`, `get("path")`, `get("name")`). -/
structure FileInfo where
  is_dir : Option Bool
  path : Option String
  name : Option String

/-- Which message the listing step printed. -/
inductive ListLog
  | found (n : Nat)
  | notFound
  | failed (status : Nat) (body : String)
deriving DecidableEq

/-- The filesystem API responses for one `_fetch_remote_downloads` run. -/
structure FetchEnv where
  listStatus : Nat
  listBody : List FileInfo
  listText : String
  read_file : String → Nat × String

/-- Lines 80-98: one candidate entry either becomes a saved `(name,
content)` pair or is skipped (directory, missing/falsy fields, or a logged
non-200 `read_file` response). -/
def transfer_one (read_file : String → Nat × String) (fi : FileInfo) :
    Option (String × String) :=
  if fi.is_dir.getD false then none
  else
    match fi.path, fi.name with
    | some p, some n =>
      if p != "" && n != "" then
        let (st, content) := read_file p
        if st == 200 then some (n, content) else none
      else none
    | _, _ => none

/-- `_fetch_remote_downloads`: a 200 listing is used as is, a 404 becomes an
empty listing with a not-found note, and any other status becomes an empty
listing with a logged error; then each entry is fetched best-effort.  The
function body raises nothing: its result is the transferred files plus which
listing message was printed. -/
def fetch_remote_downloads (env : FetchEnv) : List (String × String) × ListLog :=
  let fl :=
    if env.listStatus == 200 then (env.listBody, ListLog.found env.listBody.length)
    else if env.listStatus == 404 then ([], ListLog.notFound)
    else ([], ListLog.failed env.listStatus env.listText)
  (fl.1.filterMap (transfer_one env.read_file), fl.2)

/-! ### Liaison Supervisor (`_async_main`, main.py lines 447-474) -/

/-- An asyncio exception as the teardown distinguishes them:
`CancelledError` or anything else. -/
inductive PyExc
  | cancelled
  | exc (msg : String)
deriving DecidableEq

/-- What awaiting a cancelled task yields once it has wound down. -/
inductive TaskAwaitEnd
  | raisesCancelled
  | returnsNormally
  | raisesExc (msg : String)
deriving DecidableEq

/-- `await task` after `task.cancel()`. -/
def await_cancelled_task : TaskAwaitEnd → Except PyExc Unit
  | .raisesCancelled => .error .cancelled
  | .returnsNormally => .ok ()
  | .raisesExc m => .error (.exc m)

/-- `with contextlib.suppress(asyncio.CancelledError): ...` around one
await. -/
def suppress_cancelled (r : Except PyExc Unit) : Except PyExc Unit :=
  match r with
  | .error .cancelled => .ok ()
  | x => x

/-- The `finally` block of `_async_main` (lines 466-474): cancel and await
the keep-alive task, then cancel and await the filesystem-watch task, each
under `suppress(CancelledError)`. -/
def liaison_teardown (ka fs : TaskAwaitEnd) : Except PyExc Unit :=
  match suppress_cancelled (await_cancelled_task ka) with
  | .error e => .error e
  | .ok _ => suppress_cancelled (await_cancelled_task fs)

/-- Python `try/finally` composition: if the `finally` block raises, its
exception replaces the body's outcome; otherwise the body's outcome
(return value, exception, or cancellation) propagates. -/
def try_finally (body fin : Except PyExc Unit) : Except PyExc Unit :=
  match fin with
  | .error e => .error e
  | .ok _ => body

/-- The remote branch of `_async_main` after the two liaison tasks are
started: the primary flow `run(cdp_url)` under the teardown `finally`. -/
def async_main_remote (primary : Except PyExc Unit) (ka fs : TaskAwaitEnd) :
    Except PyExc Unit :=
  try_finally primary (liaison_teardown ka fs)

/-! ### Helper lemmas -/

theorem string_eq_of_data_eq {a b : String} (h : a.data = b.data) : a = b :=
  congrArg String.mk h

theorem py_replaceL_head (p r t : List Char) (hp : p ≠ []) :
    py_replaceL p r (p ++ t) = r ++ py_replaceL p r t := by
  rcases p with _ | ⟨c, cs⟩
  · exact absurd rfl hp
  · have hpre : (c :: cs).isPrefixOf ((c :: cs) ++ t) = true :=
      List.isPrefixOf_iff_prefix.mpr (List.prefix_append _ _)
    rw [List.cons_append, py_replaceL,
      dif_pos (And.intro hp (by rw [← List.cons_append]; exact hpre))]
    rw [← List.cons_append, List.drop_left]

theorem py_replaceL_no_occ (p r : List Char) :
    ∀ t : List Char, (∀ i, i < t.length → p.isPrefixOf (t.drop i) = false) →
      py_replaceL p r t = t
  | [], _ => by simp [py_replaceL]
  | c :: cs, h => by
    have h0 : p.isPrefixOf (c :: cs) = false := by simpa using h 0 (by simp)
    rw [py_replaceL, dif_neg]
    · have ih := py_replaceL_no_occ p r cs (fun i hi => by
        have := h (i + 1) (by simpa using Nat.succ_lt_succ hi)
        simpa [List.drop_succ_cons] using this)
      rw [ih]
    · rintro ⟨-, hpre⟩
      rw [h0] at hpre
      exact Bool.noConfusion hpre

theorem py_replaceL_boundary (p r : List Char) (hp : p ≠ []) :
    ∀ l t : List Char,
      (∀ i, i < l.length → p.isPrefixOf ((l ++ (p ++ t)).drop i) = false) →
      py_replaceL p r (l ++ (p ++ t)) = l ++ (r ++ py_replaceL p r t)
  | [], t, _ => by simpa using py_replaceL_head p r t hp
  | c :: l2, t, h => by
    have h0 : p.isPrefixOf (c :: (l2 ++ (p ++ t))) = false := by
      simpa using h 0 (by simp)
    rw [List.cons_append, py_replaceL, dif_neg]
    · have ih := py_replaceL_boundary p r hp l2 t (fun i hi => by
        have := h (i + 1) (by simpa using Nat.succ_lt_succ hi)
        simpa [List.cons_append, List.drop_succ_cons] using this)
      rw [ih, List.cons_append]
    · rintro ⟨-, hpre⟩
      rw [h0] at hpre
      exact Bool.noConfusion hpre

/-! ### Claim theorems -/

/-- Claim C10 (confirmed): any nonempty hostname made solely of hexadecimal
digits and colons matches the resolver's IP-literal pattern, so no name
lookup is performed (the result does not depend on the lookup oracle) and
the hostname itself is used verbatim as the Host-header host. -/
theorem hex_hostname_sent_verbatim (lookup : String → Option String) (host : String)
    (hne : host.data ≠ []) (hhex : host.data.all hex_colon_char = true) :
    ip_re_match host = true ∧ resolve_raw_host lookup host = host := by
  have hemp : host.data.isEmpty = false := by
    rcases hd : host.data with _ | ⟨c, cs⟩
    · exact absurd hd hne
    · rfl
  have hip : ip_re_match host = true := by
    unfold ip_re_match
    rw [hemp, hhex]
    simp
  refine ⟨hip, ?_⟩
  have hns : host ≠ "" := by
    intro h
    apply hne
    rw [h]
  unfold resolve_raw_host
  rw [if_neg hns, if_neg]
  rintro ⟨-, hfalse⟩
  rw [hip] at hfalse
  exact Bool.noConfusion hfalse

/-- Witness for C10: the hostname `cafe` (all hex digits) is classified as
an IP literal and sent verbatim, with the lookup oracle never consulted. -/
theorem hex_hostname_sent_verbatim_witness :
    ip_re_match ("cafe") = true ∧
      resolve_raw_host (fun _ => some ("9.9.9.9")) ("cafe") = ("cafe") :=
  hex_hostname_sent_verbatim (fun _ => some ("9.9.9.9")) ("cafe")
    (by decide) (by decide)

/-- Claim C1 counterexample: the hostname `cafe` is neither `localhost` nor
an IP literal (in the spec's sense of a valid IPv4/IPv6 address), yet even
with a name-lookup oracle that would resolve it to `93.184.216.34` the
resolver sends `cafe` itself — not an IP literal obtained by lookup — as
the Host-header host. -/
theorem c1_host_header_counterexample :
    ("cafe" : String) ≠ ("localhost") ∧
      spec_is_ip_literal ("cafe") = false ∧
      resolve_raw_host (fun h => if h = ("cafe") then some ("93.184.216.34") else none)
          ("cafe") = ("cafe") ∧
      spec_is_ip_literal
          (resolve_raw_host (fun h => if h = ("cafe") then some ("93.184.216.34") else none)
            ("cafe")) = false := by
  refine ⟨by decide, by decide, by decide, by decide⟩

/-- Claim C1 (amended): for every hostname that is neither `localhost` nor
matched by the resolver's IP-literal pattern (digit-dot quad or nonempty
hex-and-colon string), the Host-header host is exactly the name-lookup
result, and a lookup failure does not abort resolution but substitutes
`localhost`. -/
theorem resolve_raw_host_uses_lookup (lookup : String → Option String) (host : String)
    (h0 : host ≠ "") (h1 : host ≠ ("localhost")) (h2 : ip_re_match host = false) :
    (∀ ip, lookup host = some ip → resolve_raw_host lookup host = ip) ∧
      (lookup host = none → resolve_raw_host lookup host = ("localhost")) := by
  unfold resolve_raw_host
  rw [if_neg h0, if_pos (And.intro h1 h2)]
  constructor
  · intro ip hip
    rw [hip]
  · intro hnone
    rw [hnone]

/-- Witness for the amended C1: a successful lookup of `db.internal` puts
the returned IP in the Host header; a failing lookup substitutes
`localhost`. -/
theorem resolve_raw_host_uses_lookup_witness :
    resolve_raw_host (fun h => if h = ("db.internal") then some ("10.1.2.3") else none)
        ("db.internal") = ("10.1.2.3") ∧
      resolve_raw_host (fun _ => none) ("db.internal") = ("localhost") :=
  ⟨(resolve_raw_host_uses_lookup
        (fun h => if h = ("db.internal") then some ("10.1.2.3") else none)
        ("db.internal") (by decide) (by decide) (by decide)).1
      ("10.1.2.3") (by decide),
    (resolve_raw_host_uses_lookup (fun _ => none) ("db.internal")
        (by decide) (by decide) (by decide)).2 rfl⟩

/-- Claim C2 (code bug): for every endpoint argument that does not start
with `http://` or `https://`, `_resolve_cdp_url` raises
`ValueError("Expected a url, got ...")` instead of defaulting the scheme to
`http://` as its own comment (line 311) and the CLI example
(`python main.py localhost`) prescribe. -/
theorem resolve_cdp_url_rejects_schemeless (lookup : String → Option String)
    (fetch : String → Option VersionInfo) (arg : String)
    (h : (starts_with ("http://").data arg.data
        || starts_with ("https://").data arg.data) = false) :
    resolve_cdp_url lookup fetch arg = .raised ("Expected a url, got " ++ arg) := by
  unfold resolve_cdp_url
  rw [h]
  rfl

/-- Witness for C2: the documented CLI invocation argument `localhost`
(no scheme) makes `_resolve_cdp_url` raise instead of resolving. -/
theorem resolve_cdp_url_rejects_schemeless_witness :
    resolve_cdp_url (fun _ => none) (fun _ => none) ("localhost") =
      .raised ("Expected a url, got " ++ ("localhost")) :=
  resolve_cdp_url_rejects_schemeless (fun _ => none) (fun _ => none)
    ("localhost") (by decide)

/-- Claim C3 (confirmed): resolving a secure-scheme (`https`) endpoint whose
discovery succeeds with a websocket URL of the shape returned by the
devtools server — `ws://` followed by the Host-header host and a remainder
in which neither `ws://` nor the raw host occurs again — yields a URL whose
scheme is the secure variant `wss` and whose host is the original parsed
hostname, not the IP literal that was used for the discovery request. -/
theorem resolve_secure_roundtrip (lookup : String → Option String)
    (fetch : String → Option VersionInfo) (u : UrlParts) (rest : List Char)
    (hs : u.scheme = "https")
    (hrh : (raw_host_of lookup u).data ≠ [])
    (hfetch : fetch (host_header_of lookup u) =
      some ⟨some (String.mk (("ws://").data ++ ((raw_host_of lookup u).data ++ rest)))⟩)
    (h1 : ∀ i, i < ((raw_host_of lookup u).data ++ rest).length →
      ("ws://").data.isPrefixOf (((raw_host_of lookup u).data ++ rest).drop i) = false)
    (h2 : ∀ i, i < ("wss://").data.length →
      (raw_host_of lookup u).data.isPrefixOf
        ((("wss://").data ++ ((raw_host_of lookup u).data ++ rest)).drop i) = false)
    (h3 : ∀ i, i < rest.length →
      (raw_host_of lookup u).data.isPrefixOf (rest.drop i) = false) :
    resolve_from_parts lookup fetch u =
      .ok (String.mk (("wss://").data ++ (u.hostname.data ++ rest))) ∧
    (u.hostname ≠ raw_host_of lookup u →
      resolve_from_parts lookup fetch u ≠
        .ok (String.mk (("wss://").data ++ ((raw_host_of lookup u).data ++ rest)))) := by
  have step1 : py_replaceL ("ws://").data ("wss://").data
      (("ws://").data ++ ((raw_host_of lookup u).data ++ rest)) =
      ("wss://").data ++ ((raw_host_of lookup u).data ++ rest) := by
    rw [py_replaceL_head _ _ _ (by decide), py_replaceL_no_occ _ _ _ h1]
  have step2 : py_replaceL (raw_host_of lookup u).data u.hostname.data
      (("wss://").data ++ ((raw_host_of lookup u).data ++ rest)) =
      ("wss://").data ++ (u.hostname.data ++
        py_replaceL (raw_host_of lookup u).data u.hostname.data rest) :=
    py_replaceL_boundary _ _ hrh _ _ h2
  have step3 : py_replaceL (raw_host_of lookup u).data u.hostname.data rest = rest :=
    py_replaceL_no_occ _ _ _ h3
  have hmain : resolve_from_parts lookup fetch u =
      .ok (String.mk (("wss://").data ++ (u.hostname.data ++ rest))) := by
    unfold resolve_from_parts
    rw [hfetch]
    show (if u.scheme = "https" then _ else _) = _
    rw [if_pos hs]
    refine congrArg ResolveResult.ok (string_eq_of_data_eq ?_)
    show py_replaceL (raw_host_of lookup u).data u.hostname.data
        (py_replaceL ("ws://").data ("wss://").data
          (("ws://").data ++ ((raw_host_of lookup u).data ++ rest))) = _
    rw [step1, step2, step3]
  refine ⟨hmain, ?_⟩
  intro hne heq
  rw [hmain] at heq
  have hdata := congrArg String.data (ResolveResult.ok.inj heq)
  have hcons : u.hostname.data ++ rest = (raw_host_of lookup u).data ++ rest :=
    List.append_cancel_left hdata
  exact hne (string_eq_of_data_eq (List.append_cancel_right hcons))

/-- Witness for C3: resolving `https://remote.example:9222` with lookup
`remote.example -> 10.0.0.7` and a discovery response of
`ws://10.0.0.7:9222/devtools/browser/abc` yields
`wss://remote.example:9222/devtools/browser/abc`. -/
theorem resolve_secure_roundtrip_witness :
    resolve_from_parts
        (fun h => if h = ("remote.example") then some ("10.0.0.7") else none)
        (fun h => if h = ("10.0.0.7:9222")
          then some ⟨some ("ws://10.0.0.7:9222/devtools/browser/abc")⟩ else none)
        ⟨"https", "remote.example", some 9222⟩ =
      .ok (String.mk (("wss://").data ++
        (("remote.example").data ++ (":9222/devtools/browser/abc").data))) :=
  (resolve_secure_roundtrip
      (fun h => if h = ("remote.example") then some ("10.0.0.7") else none)
      (fun h => if h = ("10.0.0.7:9222")
        then some ⟨some ("ws://10.0.0.7:9222/devtools/browser/abc")⟩ else none)
      ⟨"https", "remote.example", some 9222⟩
      ((":9222/devtools/browser/abc").data)
      (by decide) (by decide) (by decide) (by decide) (by decide) (by decide)).1

/-- Claim C4 (code bug): the three historical field spellings are accepted
on an object response, but a JSON-array response makes the candidate fail
with `AttributeError` — `data.get(...)` runs before the
`isinstance(data, list)` check, so the array branch of browser_join.py is
unreachable. -/
theorem bj_extract_spellings_and_array :
    bj_attempt (PyJson.obj [(("webSocketDebuggerUrl"),
        PyJson.str ("ws://127.0.0.1:9222/devtools/browser/x"))]) =
      .ok (some ("ws://127.0.0.1:9222/devtools/browser/x")) ∧
    bj_attempt (PyJson.obj [(("websocketDebuggerUrl"),
        PyJson.str ("ws://127.0.0.1:9222/devtools/browser/x"))]) =
      .ok (some ("ws://127.0.0.1:9222/devtools/browser/x")) ∧
    bj_attempt (PyJson.obj [(("webSocketDebuggerURL"),
        PyJson.str ("ws://127.0.0.1:9222/devtools/browser/x"))]) =
      .ok (some ("ws://127.0.0.1:9222/devtools/browser/x")) ∧
    bj_attempt (PyJson.arr [PyJson.obj [(("webSocketDebuggerUrl"),
        PyJson.str ("ws://127.0.0.1:9222/devtools/browser/x"))]]) =
      .error ("AttributeError") :=
  ⟨rfl, rfl, rfl, rfl⟩

/-- Claim C5 counterexample: a 500 response to the watch request makes
`_watch_filesystem` log and return normally — it does not exit the process
with code 1 as the claim states. -/
theorem watch_failure_counterexample :
    (watch_filesystem (fun _ => none) ⟨201, 500, none, 200, []⟩).outcome =
        TaskEnd.finished ∧
      TaskEnd.finished ≠ TaskEnd.exited 1 :=
  ⟨rfl, by decide⟩

/-- Claim C5 (amended): a non-201 watch response terminates only the
Change-Watch activity — it logs, streams no events, skips the cleanup
(no watch id was recorded) and returns, leaving the process running —
whereas a discovery failure in `_resolve_cdp_url` is what exits with
code 1. -/
theorem watch_failure_soft (decode : String → Option PyJson) (r : FsResponses)
    (h : r.watchStatus ≠ 201) :
    (watch_filesystem decode r).outcome = TaskEnd.finished ∧
      (watch_filesystem decode r).events = [] ∧
      (watch_filesystem decode r).cleaned = false ∧
      ∀ (lookup : String → Option String) (u : UrlParts),
        resolve_from_parts lookup (fun _ => none) u = .exit1 := by
  have hb : (r.watchStatus != 201) = true := by simpa [bne_iff_ne] using h
  refine ⟨?_, ?_, ?_, fun lookup u => rfl⟩ <;> simp [watch_filesystem, hb]

/-- Witness for the amended C5: watch status 503 gives a finished activity
with no events, no cleanup and no process exit. -/
theorem watch_failure_soft_witness :
    (watch_filesystem (fun _ => none) ⟨201, 503, some ("w1"), 200, []⟩).outcome =
        TaskEnd.finished ∧
      (watch_filesystem (fun _ => none) ⟨201, 503, some ("w1"), 200, []⟩).events = [] ∧
      (watch_filesystem (fun _ => none) ⟨201, 503, some ("w1"), 200, []⟩).cleaned = false :=
  ⟨(watch_failure_soft (fun _ => none) ⟨201, 503, some ("w1"), 200, []⟩ (by decide)).1,
    (watch_failure_soft (fun _ => none) ⟨201, 503, some ("w1"), 200, []⟩ (by decide)).2.1,
    (watch_failure_soft (fun _ => none) ⟨201, 503, some ("w1"), 200, []⟩ (by decide)).2.2.1⟩

theorem dl_foldl_filename_stable (fn : String) :
    ∀ (l : List DlEvent) (s : DlState), begins_only fn l = true →
      s.filename = some fn → (l.foldl dl_step s).filename = some fn
  | [], _, _, hs => hs
  | e :: t, s, h, hs => by
    have h1 : begin_ok fn e = true ∧ begins_only fn t = true := by
      simpa [begins_only, List.all_cons] using h
    rw [List.foldl_cons]
    apply dl_foldl_filename_stable fn t _ h1.2
    cases e with
    | dlBegin f =>
      have hf : f = some fn := by simpa [begin_ok] using h1.1
      simp [dl_step, on_download_begin, hf]
    | progress st =>
      show (on_download_progress s st).filename = some fn
      unfold on_download_progress
      split <;> simpa using hs

theorem dl_foldl_filename_of_mem (fn : String) :
    ∀ (l : List DlEvent) (s : DlState), begins_only fn l = true →
      DlEvent.dlBegin (some fn) ∈ l → (l.foldl dl_step s).filename = some fn
  | [], _, _, hmem => absurd hmem (List.not_mem_nil _)
  | e :: t, s, h, hmem => by
    have h1 : begin_ok fn e = true ∧ begins_only fn t = true := by
      simpa [begins_only, List.all_cons] using h
    rw [List.foldl_cons]
    rcases List.mem_cons.mp hmem with he | ht
    · apply dl_foldl_filename_stable fn t _ h1.2
      subst he
      simp [dl_step, on_download_begin]
    · exact dl_foldl_filename_of_mem fn t _ h1.2 ht

theorem dl_foldl_completed :
    ∀ (l : List DlEvent) (s : DlState),
      (l.foldl dl_step s).completed = (s.completed || has_completing_progress l)
  | [], s => by simp [has_completing_progress]
  | e :: t, s => by
    rw [List.foldl_cons, dl_foldl_completed t]
    cases e with
    | dlBegin f =>
      simp [dl_step, on_download_begin, has_completing_progress, List.any_cons, completing]
    | progress st =>
      simp only [dl_step, has_completing_progress, List.any_cons, completing]
      unfold on_download_progress
      split
      · rename_i hc
        simp [hc]
      · rename_i hc
        simp only [Bool.not_eq_true] at hc
        simp [hc]

/-- Claim C6 (confirmed): for every event sequence whose begin events all
carry `report.pdf`, in which such a begin fires and some progress event has
a completing state, `_click_and_await_download` returns `report.pdf` and the
completion event is set before the timeout; and for every event sequence
whatsoever, the completion event is set exactly when some progress event has
state `completed` or `canceled` — never for `started` or `inProgress`. -/
theorem click_and_await_download_spec (events : List DlEvent)
    (hall : begins_only ("report.pdf") events = true)
    (hmem : DlEvent.dlBegin (some ("report.pdf")) ∈ events)
    (hfin : has_completing_progress events = true) :
    click_and_await_download events = some ("report.pdf") ∧
      (dl_run events).completed = true ∧
      ∀ evs : List DlEvent, (dl_run evs).completed = has_completing_progress evs := by
  refine ⟨dl_foldl_filename_of_mem _ events _ hall hmem, ?_, ?_⟩
  · rw [dl_run, dl_foldl_completed]
    simp [hfin]
  · intro evs
    rw [dl_run, dl_foldl_completed]
    simp

/-- Witness for C6: begin with `report.pdf`, a non-completing progress
(`inProgress`, which must not fire completion) and then `completed`. -/
theorem click_and_await_download_spec_witness :
    click_and_await_download [DlEvent.dlBegin (some ("report.pdf")),
        DlEvent.progress (some ("inProgress")),
        DlEvent.progress (some ("completed"))] = some ("report.pdf") ∧
      (dl_run [DlEvent.dlBegin (some ("report.pdf")),
        DlEvent.progress (some ("inProgress")),
        DlEvent.progress (some ("completed"))]).completed = true :=
  ⟨(click_and_await_download_spec _ (by decide) (by decide) (by decide)).1,
    (click_and_await_download_spec _ (by decide) (by decide) (by decide)).2.1⟩

/-- Claim C7 (confirmed): a 404 listing makes `_fetch_remote_downloads`
complete normally with zero transferred files and only a not-found note;
any other non-success status likewise transfers nothing and logs an error,
and no code path of the function raises. -/
theorem fetch_remote_downloads_spec (env : FetchEnv) :
    (env.listStatus = 404 → fetch_remote_downloads env = ([], ListLog.notFound)) ∧
      (env.listStatus ≠ 200 → env.listStatus ≠ 404 →
        fetch_remote_downloads env =
          ([], ListLog.failed env.listStatus env.listText)) := by
  constructor
  · intro h
    simp [fetch_remote_downloads, h]
  · intro h1 h2
    have hb1 : (env.listStatus == 200) = false := by simpa using h1
    have hb2 : (env.listStatus == 404) = false := by simpa using h2
    simp [fetch_remote_downloads, hb1, hb2]

/-- Witness for C7: a 404 listing transfers nothing; a 503 listing
transfers nothing and records the logged error. -/
theorem fetch_remote_downloads_spec_witness :
    fetch_remote_downloads ⟨404, [], "", fun _ => (500, "")⟩ =
        ([], ListLog.notFound) ∧
      fetch_remote_downloads ⟨503, [], ("boom"), fun _ => (500, "")⟩ =
        ([], ListLog.failed 503 ("boom")) :=
  ⟨(fetch_remote_downloads_spec ⟨404, [], "", fun _ => (500, "")⟩).1 rfl,
    (fetch_remote_downloads_spec ⟨503, [], ("boom"), fun _ => (500, "")⟩).2
      (by decide) (by decide)⟩

/-- Claim C8 (confirmed): a stream with one malformed data line followed by
one valid data line yields exactly the one decoded event — the malformed
line is skipped without terminating the sequence — and any line not carrying
the `data: ` prefix is filtered out. -/
theorem sse_stream_skips_malformed (decode : String → Option PyJson)
    (l1 l2 : String) (e : PyJson)
    (h1 : starts_with ("data: ").data (py_strip l1.data) = true)
    (h1d : decode (String.mk ((py_strip l1.data).drop 6)) = none)
    (h2 : starts_with ("data: ").data (py_strip l2.data) = true)
    (h2d : decode (String.mk ((py_strip l2.data).drop 6)) = some e) :
    sse_events decode [l1, l2] = [e] ∧
      ∀ (lines : List String) (l : String),
        starts_with ("data: ").data (py_strip l.data) = false →
        sse_events decode (l :: lines) = sse_events decode lines := by
  constructor
  · simp [sse_events, sse_decode_line, h1, h1d, h2, h2d]
  · intro lines l hl
    simp [sse_events, sse_decode_line, hl]

/-- Witness for C8: with a decoder accepting exactly `ok`, the stream
`data: nope`, `data: ok` yields exactly one event. -/
theorem sse_stream_skips_malformed_witness :
    sse_events (fun s => if s = ("ok") then some (PyJson.str ("changed")) else none)
        [("data: nope"), ("data: ok")] = [PyJson.str ("changed")] :=
  (sse_stream_skips_malformed
      (fun s => if s = ("ok") then some (PyJson.str ("changed")) else none)
      ("data: nope") ("data: ok") (PyJson.str ("changed"))
      (by decide) rfl (by decide) rfl).1

/-- Claim C9 (confirmed): whatever the primary flow's outcome (return,
exception, or cancellation), the supervisor's teardown cancels and awaits
both liaison tasks; since each ends either by raising the expected
`CancelledError` (suppressed) or by having already returned, the teardown
completes without raising and the primary flow's own outcome is what
`_async_main` returns or re-raises. -/
theorem supervisor_preserves_primary_outcome (primary : Except PyExc Unit)
    (ka fs : TaskAwaitEnd)
    (hka : ka = TaskAwaitEnd.raisesCancelled ∨ ka = TaskAwaitEnd.returnsNormally)
    (hfs : fs = TaskAwaitEnd.raisesCancelled ∨ fs = TaskAwaitEnd.returnsNormally) :
    async_main_remote primary ka fs = primary ∧
      liaison_teardown ka fs = .ok () := by
  rcases hka with h | h <;> rcases hfs with h2 | h2 <;> subst h <;> subst h2 <;>
    exact ⟨rfl, rfl⟩

/-- Witness for C9: a cancelled primary flow with both liaison tasks ending
in the expected cancellation — the tasks' cancellation is absorbed and the
primary flow's own cancellation is re-raised. -/
theorem supervisor_preserves_primary_outcome_witness :
    async_main_remote (.error PyExc.cancelled) TaskAwaitEnd.raisesCancelled
        TaskAwaitEnd.raisesCancelled = .error PyExc.cancelled ∧
      liaison_teardown TaskAwaitEnd.raisesCancelled TaskAwaitEnd.raisesCancelled =
        .ok () :=
  supervisor_preserves_primary_outcome (.error PyExc.cancelled)
    TaskAwaitEnd.raisesCancelled TaskAwaitEnd.raisesCancelled (Or.inl rfl) (Or.inl rfl)
